import Mathlib

/-!
Shallow embedding of `easygoogletranslate.py` (class `EasyGoogleTranslate`).

Text values are modelled as `List Char` (Python `str` is a sequence of Unicode
scalar values, and `len` counts code points).  Network I/O is modelled by an
explicit transport function from a `Request` (URL, timeout, proxies) to a
`TransportResult`; the nondeterministic completion order of
`concurrent.futures.as_completed` is an explicit permutation parameter.
`exit(1)` is modelled as an outcome carrying no value; `print` calls are
modelled by a `reported` flag and file writes by an explicit write log.
-/

namespace EGT

/-- Python `urllib.parse.quote` safe characters with the default `safe` string:
ASCII letters, digits, `_ . - ~`, plus `/`. -/
def quoteSafe (b : Nat) : Bool :=
  (65 ≤ b && b ≤ 90) || (97 ≤ b && b ≤ 122) || (48 ≤ b && b ≤ 57) ||
  b = 95 || b = 46 || b = 45 || b = 126 || b = 47

/-- Uppercase hexadecimal digit for a value below 16. -/
def hexDigitUpper (n : Nat) : Char :=
  if n < 10 then Char.ofNat (48 + n) else Char.ofNat (55 + n)

/-- UTF-8 encoding of one Unicode scalar value, as its list of bytes
(Python `str.encode('utf8')`, per code point). -/
def utf8EncodeChar (c : Char) : List Nat :=
  let n := c.toNat
  if n < 0x80 then [n]
  else if n < 0x800 then
    [0xC0 + n / 0x40, 0x80 + n % 0x40]
  else if n < 0x10000 then
    [0xE0 + n / 0x1000, 0x80 + (n / 0x40) % 0x40, 0x80 + n % 0x40]
  else
    [0xF0 + n / 0x40000, 0x80 + (n / 0x1000) % 0x40,
     0x80 + (n / 0x40) % 0x40, 0x80 + n % 0x40]

/-- UTF-8 encoding of a text (`text.encode('utf8')`). -/
def utf8Encode (text : List Char) : List Nat :=
  text.flatMap utf8EncodeChar

/-- Percent-encoding of a byte sequence (`urllib.parse.quote` on bytes with
its default `safe='/'`): safe bytes stand for themselves, every other byte
becomes `%XX` with uppercase hexadecimal digits. -/
def percentEncode (bytes : List Nat) : List Char :=
  bytes.flatMap fun b =>
    if quoteSafe b then [Char.ofNat b]
    else ['%', hexDigitUpper (b / 16), hexDigitUpper (b % 16)]

/-- The quoting step of `make_request`, line 94:
`urllib.parse.quote(text.encode('utf8'))`. -/
def escapedText (text : List Char) : List Char :=
  percentEncode (utf8Encode text)

/-- The f-string URL of `make_request`, line 95:
`https://translate.google.com/m?tl={target}&sl={source}&q={escaped_text}`. -/
def formatUrl (target source text : List Char) : List Char :=
  ("https://translate.google.com/m?tl=").toList ++ target ++
  ("&sl=").toList ++ source ++
  ("&q=").toList ++ escapedText text

/-- First marker of the regex `class="(?:t0|result-container)">`, the
alternative `t0`. -/
def marker1 : List Char := ("class=\"t0\">").toList

/-- Second marker of the regex, the alternative `result-container`. -/
def marker2 : List Char := ("class=\"result-container\">").toList

/-- Characters strictly before the first `<` of a list; `none` when the list
has no `<`.  This is the non-greedy capture `(.*?)<` of the pattern, with
`(?s)` letting `.` match line breaks (no character is special here). -/
def upToLt : List Char → Option (List Char)
  | [] => none
  | c :: rest => if c = '<' then some [] else (upToLt rest).map (c :: ·)

/-- One attempt of the regex `(?s)class="(?:t0|result-container)">(.*?)<`
anchored at the head of the list: one of the two markers must be a prefix and
a `<` must follow; the capture is everything between.  The two alternatives
cannot both match at one position (they differ right after `class="`). -/
def matchHere (s : List Char) : Option (List Char) :=
  if marker1.isPrefixOf s then upToLt (s.drop marker1.length)
  else if marker2.isPrefixOf s then upToLt (s.drop marker2.length)
  else none

/-- Leftmost match of the pattern (`re.findall(...)[0]` existence and value,
`make_request` lines 100-101): scan positions left to right, return the first
successful capture. -/
def findTranslation : List Char → Option (List Char)
  | [] => none
  | c :: rest =>
    match matchHere (c :: rest) with
    | some r => some r
    | none => findTranslation rest

/-- One step of entity decoding after a `&`: the named entities and the
decimal and hexadecimal numeric character references.  Returns the decoded
character and the rest of the input.  This models the standard library
collaborator `html.unescape` (an external primitive per the design, not code
of this repository) on the entity forms the design names: `&amp;`-style named
entities and numeric character references; the full named-entity table of the
standard library is not reproduced. -/
def parseEntity (s : List Char) : Option (Char × List Char) :=
  if ("amp;").toList.isPrefixOf s then some ('&', s.drop 4)
  else if ("lt;").toList.isPrefixOf s then some ('<', s.drop 3)
  else if ("gt;").toList.isPrefixOf s then some ('>', s.drop 3)
  else if ("quot;").toList.isPrefixOf s then some ('"', s.drop 5)
  else
    match s with
    | '#' :: 'x' :: rest => parseNumRef 16 rest 0 0
    | '#' :: 'X' :: rest => parseNumRef 16 rest 0 0
    | '#' :: rest => parseNumRef 10 rest 0 0
    | _ => none
where
  /-- Digits of a numeric character reference up to `;`; `count` tracks that
  at least one digit was seen. -/
  parseNumRef (base : Nat) : List Char → Nat → Nat → Option (Char × List Char)
    | ';' :: rest, acc, count =>
      if count = 0 then none
      else if h : acc < 0xD800 ∨ (0xE000 ≤ acc ∧ acc < 0x110000) then
        some (Char.ofNatAux acc (by rcases h with h | h <;> simp [UInt32.isValidChar, Nat.isValidChar] <;> omega), rest)
      else none
    | c :: rest, acc, count =>
      let d := if '0' ≤ c ∧ c ≤ '9' then some (c.toNat - 48)
        else if base = 16 ∧ 'a' ≤ c ∧ c ≤ 'f' then some (c.toNat - 87)
        else if base = 16 ∧ 'A' ≤ c ∧ c ≤ 'F' then some (c.toNat - 55)
        else none
      match d with
      | some d => if d < base then parseNumRef base rest (acc * base + d) (count + 1) else none
      | none => none
    | [], _, _ => none

/-- Fuel-indexed entity decoder; fuel bounds the number of characters
consumed, each step consumes at least one. -/
def htmlUnescapeAux : Nat → List Char → List Char
  | 0, s => s
  | _ + 1, [] => []
  | fuel + 1, c :: rest =>
    if c = '&' then
      match parseEntity rest with
      | some (d, rest2) => d :: htmlUnescapeAux fuel rest2
      | none => '&' :: htmlUnescapeAux fuel rest
    else c :: htmlUnescapeAux fuel rest

/-- Entity decoding, `html.unescape` (line 106), on the modelled entity forms. -/
def htmlUnescape (s : List Char) : List Char :=
  htmlUnescapeAux s.length s

/-- A proxies dictionary (`{'http': ..., 'https': ...}`), as its entry list;
a Python dict is falsy exactly when empty. -/
abbrev Proxies := List (List Char × List Char)

/-- A value the dynamically typed `target_language` parameter may hold:
a string, a list of strings, or a tuple of strings. -/
inductive Target where
  | str (s : List Char)
  | list (ts : List (List Char))
  | tuple (ts : List (List Char))
deriving DecidableEq

/-- Python truthiness of a `Target` value: empty string, list and tuple are
falsy. -/
def Target.truthy : Target → Bool
  | .str s => !s.isEmpty
  | .list ts => !ts.isEmpty
  | .tuple ts => !ts.isEmpty

/-- The dynamic type test `isinstance(target_language, list)` of line 131. -/
def Target.isList : Target → Bool
  | .list _ => true
  | _ => false

/-- Escape one character of a Python string repr with chosen quote `q`
(backslash, the quote, and the ASCII control characters; printable
characters stand for themselves, matching CPython on ASCII and printable
text). -/
def pyReprChar (q c : Char) : List Char :=
  if c = '\\' then ['\\', '\\']
  else if c = q then ['\\', q]
  else if c = '\n' then ['\\', 'n']
  else if c = '\r' then ['\\', 'r']
  else if c = '\t' then ['\\', 't']
  else if c.toNat < 0x20 ∨ c.toNat = 0x7F then
    ['\\', 'x', (hexDigitUpper (c.toNat / 16)).toLower, (hexDigitUpper (c.toNat % 16)).toLower]
  else [c]

/-- Python `repr` of a string: single quotes, switching to double quotes when
the text holds a single quote but no double quote. -/
def pyReprStr (s : List Char) : List Char :=
  let q : Char := if s.contains (Char.ofNat 39) && !s.contains '"' then '"' else Char.ofNat 39
  q :: s.flatMap (pyReprChar q) ++ [q]

/-- Comma-separated `repr`s of the elements. -/
def pyReprElems : List (List Char) → List Char
  | [] => []
  | [s] => pyReprStr s
  | s :: rest => pyReprStr s ++ (", ").toList ++ pyReprElems rest

/-- Python `str()` of a `Target`, as the f-string of line 95 applies it:
a string stands for itself; a list shows as `['a', 'b']`; a tuple as
`('a', 'b')`, with a trailing comma when it has one element. -/
def Target.pyStr : Target → List Char
  | .str s => s
  | .list ts => '[' :: pyReprElems ts ++ [']']
  | .tuple ts =>
    match ts with
    | [s] => '(' :: pyReprStr s ++ (",)").toList
    | _ => '(' :: pyReprElems ts ++ [')']

/-- The constructor-held defaults (`__init__`, lines 68-81); `self.pattern`
is the constant regex and is kept as the definitions above. -/
structure Config where
  source_language : List Char
  target_language : Target
  timeout : Nat
  proxies : Option Proxies
deriving DecidableEq

/-- An `EasyGoogleTranslate()` instance built with `__init__`'s own default
arguments: `source_language='auto'`, `target_language='tr'`, `timeout=5`,
`proxies=None`. -/
def defaultConfig : Config :=
  { source_language := ("auto").toList
    target_language := .str (("tr").toList)
    timeout := 5
    proxies := none }

/-- Python `x or y` on the `target_language` argument (line 122): `None` and
falsy values fall through to the instance default. -/
def orTarget (arg : Option Target) (inst : Target) : Target :=
  match arg with
  | some v => if v.truthy then v else inst
  | none => inst

/-- Python `x or y` on the `source_language` argument (line 123). -/
def orStr (arg : Option (List Char)) (inst : List Char) : List Char :=
  match arg with
  | some v => if v.isEmpty then inst else v
  | none => inst

/-- Python `x or y` on the `timeout` argument (line 124); `0` is falsy. -/
def orNat (arg : Option Nat) (inst : Nat) : Nat :=
  match arg with
  | some v => if v = 0 then inst else v
  | none => inst

/-- Python `x or y` on the `proxies` argument (line 125); `None` and the
empty dict are falsy. -/
def orProx (arg : Option Proxies) (inst : Option Proxies) : Option Proxies :=
  match arg with
  | some v => if v.isEmpty then inst else some v
  | none => inst

/-- One issued HTTP GET: `requests.get(url, timeout=timeout, proxies=proxies)`
(line 97). -/
structure Request where
  url : List Char
  timeout : Nat
  proxies : Option Proxies
deriving DecidableEq

/-- What the transport does with a request: return a response with a status
code and a body (`response.text`), or raise a `requests` exception (timeout,
DNS failure, connection refused, proxy failure). -/
inductive TransportResult where
  | resp (status : Nat) (body : List Char)
  | exn
deriving DecidableEq

/-- A transport stub: the environment of one run. -/
def Transport := Request → TransportResult

/-- The observable outcome of one `make_request` call: the returned
translation (`none` models `exit(1)`), the files written (name and content),
whether an error message was printed, and the requests issued. -/
structure MReq where
  result : Option (List Char)
  fileWrites : List (List Char × List Char)
  reported : Bool
  requests : List Request
deriving DecidableEq

/-- The diagnostic file name of line 103. -/
def errorFileName : List Char := ("error.txt").toList

/-- The embedding of `make_request` (lines 83-109).  `raise_for_status` raises
`requests.exceptions.HTTPError` for 4xx and 5xx status codes; the
`except requests.exceptions.RequestException` arm catches it and every
transport failure, prints and exits.  On success the body round-trips through
`encode('utf8').decode('utf8')` (the identity) and is scanned; no match
prints, writes the raw body to `error.txt` and exits; a match is entity
decoded and returned. -/
def makeRequest (transport : Transport) (target source text : List Char)
    (timeout : Nat) (proxies : Option Proxies) : MReq :=
  let req : Request := ⟨formatUrl target source text, timeout, proxies⟩
  match transport req with
  | .exn => { result := none, fileWrites := [], reported := true, requests := [req] }
  | .resp status body =>
    if 400 ≤ status ∧ status < 600 then
      { result := none, fileWrites := [], reported := true, requests := [req] }
    else
      match findTranslation body with
      | none =>
        { result := none, fileWrites := [(errorFileName, body)]
          reported := true, requests := [req] }
      | some m =>
        { result := some (htmlUnescape m), fileWrites := []
          reported := false, requests := [req] }

/-- The value a `translate` call produces: a single string, a list of strings
(multi-target), or process exit. -/
inductive TOutcome where
  | single (s : List Char)
  | multi (ss : List (List Char))
  | exit (code : Nat)
deriving DecidableEq

/-- The observable outcome of one `translate` call. -/
structure TRun where
  outcome : TOutcome
  fileWrites : List (List Char × List Char)
  reported : Bool
  requests : List Request
deriving DecidableEq

/-- Line 137, `[f.result() for f in concurrent.futures.as_completed(futures)]`: walk the futures in completion order; the first failed one
re-raises and the process exits (`none`), otherwise collect the values in
that order. -/
def gatherCompleted (rs : List MReq) : List Nat → Option (List (List Char))
  | [] => some []
  | i :: is =>
    match (rs.getD i ⟨none, [], false, []⟩).result with
    | none => none
    | some v =>
      match gatherCompleted rs is with
      | none => none
      | some vs => some (v :: vs)

/-- The dispatch of `translate` after resolution and the length check
(lines 131-139): a `list` target fans out one `make_request` per element,
with `cord` the completion order of `as_completed`; any other value goes to
a single `make_request`, stringified by the f-string. -/
def dispatch (transport : Transport) (cord : List Nat) (text : List Char)
    (target : Target) (source : List Char) (timeout : Nat)
    (proxies : Option Proxies) : TRun :=
  match target with
  | .list ts =>
    let rs := ts.map fun t => makeRequest transport t source text timeout proxies
    { outcome :=
        match gatherCompleted rs cord with
        | some vs => .multi vs
        | none => .exit 1
      fileWrites := rs.flatMap (·.fileWrites)
      reported := rs.any (·.reported)
      requests := rs.flatMap (·.requests) }
  | t =>
    let r := makeRequest transport t.pyStr source text timeout proxies
    { outcome := match r.result with | some s => .single s | none => .exit 1
      fileWrites := r.fileWrites
      reported := r.reported
      requests := r.requests }

/-- The embedding of `translate` (lines 111-139): resolve each parameter with Python `or`
against the instance defaults, fail with `exit(1)` when the text is longer
than 5000 characters, then dispatch. -/
def translate (cfg : Config) (transport : Transport) (cord : List Nat)
    (text : List Char) (targetArg : Option Target)
    (sourceArg : Option (List Char)) (timeoutArg : Option Nat)
    (proxiesArg : Option Proxies) : TRun :=
  let target := orTarget targetArg cfg.target_language
  let source := orStr sourceArg cfg.source_language
  let timeout := orNat timeoutArg cfg.timeout
  let proxies := orProx proxiesArg cfg.proxies
  if 5000 < text.length then
    { outcome := .exit 1, fileWrites := [], reported := true, requests := [] }
  else
    dispatch transport cord text target source timeout proxies

/-- A filesystem stub: `some content` when the path names an existing regular
file readable as UTF-8 text, `none` otherwise (`os.path.isfile` plus the
`open(...).read()` of lines 152-157). -/
def FileSystem := List Char → Option (List Char)

/-- The embedding of `translate_file` (lines 141-159): fail with `exit(1)` when the path is
not a regular file, otherwise read the whole file and delegate to
`translate`. -/
def translateFile (cfg : Config) (transport : Transport) (cord : List Nat)
    (fs : FileSystem) (path : List Char) (targetArg : Option Target)
    (sourceArg : Option (List Char)) (timeoutArg : Option Nat)
    (proxiesArg : Option Proxies) : TRun :=
  match fs path with
  | none =>
    { outcome := .exit 1, fileWrites := [], reported := true, requests := [] }
  | some text =>
    translate cfg transport cord text targetArg sourceArg timeoutArg proxiesArg

end EGT

namespace EGT

/-- A stub response body holding the `result-container` marker. -/
def okBody : List Char := ("<div class=\"result-container\">Merhaba</div>").toList

/-- A stub transport answering every request with status 200 and `okBody`. -/
def stubOk : Transport := fun _ => .resp 200 okBody

/-- A stub transport answering with a body that holds neither marker. -/
def stubNoMatch : Transport := fun _ => .resp 200 (("<html>nothing here</html>").toList)

/-- A stub transport raising a `requests` exception on every request. -/
def stubExn : Transport := fun _ => .exn

/-- The marker `class="t0">` is never a prefix of `class="result-container">`
followed by anything: the two regex alternatives are disjoint. -/
theorem marker1_not_prefixOf_marker2 (r : List Char) :
    marker1.isPrefixOf (marker2 ++ r) = false := rfl

/-- Every branch of `make_request` issues exactly one request, to the
formatted URL, with the resolved timeout and proxies. -/
theorem makeRequest_requests (transport : Transport) (target source text : List Char)
    (timeout : Nat) (proxies : Option Proxies) :
    (makeRequest transport target source text timeout proxies).requests =
      [⟨formatUrl target source text, timeout, proxies⟩] := by
  simp only [makeRequest]
  cases transport ⟨formatUrl target source text, timeout, proxies⟩ with
  | exn => rfl
  | resp status body =>
    dsimp only
    split
    · rfl
    · cases findTranslation body <;> rfl

/-- The success path of `make_request`: a response below status 400 whose body
matches the pattern yields the entity-decoded first capture. -/
theorem makeRequest_ok (transport : Transport) (target source text : List Char)
    (timeout : Nat) (proxies : Option Proxies) (st : Nat) (body m : List Char)
    (hresp : transport ⟨formatUrl target source text, timeout, proxies⟩ = .resp st body)
    (hst : st < 400) (hm : findTranslation body = some m) :
    makeRequest transport target source text timeout proxies =
      ⟨some (htmlUnescape m), [], false, [⟨formatUrl target source text, timeout, proxies⟩]⟩ := by
  simp only [makeRequest, hresp]
  rw [if_neg (by omega), hm]

/-- The unparseable-body path of `make_request`: no value, one `error.txt`
write holding the body, an error printed. -/
theorem makeRequest_noParse (transport : Transport) (target source text : List Char)
    (timeout : Nat) (proxies : Option Proxies) (st : Nat) (body : List Char)
    (hresp : transport ⟨formatUrl target source text, timeout, proxies⟩ = .resp st body)
    (hst : st < 400) (hm : findTranslation body = none) :
    makeRequest transport target source text timeout proxies =
      ⟨none, [(errorFileName, body)], true, [⟨formatUrl target source text, timeout, proxies⟩]⟩ := by
  simp only [makeRequest, hresp]
  rw [if_neg (by omega), hm]

/-- The failure path of `make_request`: an exception from the transport or a
4xx/5xx status prints and exits without writing a file. -/
theorem makeRequest_fail (transport : Transport) (target source text : List Char)
    (timeout : Nat) (proxies : Option Proxies)
    (h : transport ⟨formatUrl target source text, timeout, proxies⟩ = .exn ∨
      ∃ st body, transport ⟨formatUrl target source text, timeout, proxies⟩ = .resp st body ∧
        400 ≤ st ∧ st < 600) :
    makeRequest transport target source text timeout proxies =
      ⟨none, [], true, [⟨formatUrl target source text, timeout, proxies⟩]⟩ := by
  rcases h with h | ⟨st, body, hresp, h4, h6⟩
  · simp only [makeRequest, h]
  · simp only [makeRequest, hresp]
    rw [if_pos ⟨h4, h6⟩]

/-- The scan of `findTranslation` returns the capture of the leftmost position
where the pattern matches. -/
theorem findTranslation_first (pre rest r : List Char)
    (h : ∀ i, i < pre.length → matchHere ((pre ++ rest).drop i) = none)
    (hm : matchHere rest = some r) :
    findTranslation (pre ++ rest) = some r := by
  induction pre with
  | nil =>
    cases rest with
    | nil => simp [matchHere, marker1, marker2] at hm
    | cons c cs => simp [findTranslation, hm]
  | cons p ps ih =>
    have h0 := h 0 (by simp)
    simp only [List.drop_zero] at h0
    show findTranslation (p :: (ps ++ rest)) = some r
    rw [findTranslation]
    simp only [List.cons_append] at h0
    rw [h0]
    exact ih (fun i hi => by
      have := h (i + 1) (by simpa using Nat.succ_lt_succ hi)
      simpa using this)

/-- A capture stops right before the first `<` after the marker. -/
theorem upToLt_append (mid suf : List Char) (h : '<' ∉ mid) :
    upToLt (mid ++ '<' :: suf) = some mid := by
  induction mid with
  | nil => simp [upToLt]
  | cons c cs ih =>
    simp only [List.mem_cons, not_or] at h
    simp [upToLt, Ne.symm h.1, ih h.2]

/-- Walking the completed futures in any order over uniformly successful
requests collects each value, in that order. -/
theorem gatherCompleted_eq (rs : List MReq) (f : Nat → List Char) (cord : List Nat)
    (h : ∀ i ∈ cord, (rs.getD i ⟨none, [], false, []⟩).result = some (f i)) :
    gatherCompleted rs cord = some (cord.map f) := by
  induction cord with
  | nil => rfl
  | cons i is ih =>
    rw [gatherCompleted, h i (by simp), ih (fun j hj => h j (by simp [hj]))]
    rfl

/-- Indexing a mapped list inside its bounds ignores the default. -/
theorem getD_map_lt (ts : List (List Char)) (g : List Char → MReq) (i : Nat)
    (hi : i < ts.length) (d : MReq) :
    (ts.map g).getD i d = g (ts.get ⟨i, hi⟩) := by
  induction ts generalizing i with
  | nil => simp at hi
  | cons t ts ih =>
    cases i with
    | zero => rfl
    | succ j => exact ih j (by simpa using hi)

/-- The per-target requests of the fan-out, in submission order. -/
theorem fanout_requests (transport : Transport) (source text : List Char)
    (timeout : Nat) (proxies : Option Proxies) (ts : List (List Char)) :
    ((ts.map fun t => makeRequest transport t source text timeout proxies).flatMap
        (·.requests)) =
      ts.map fun t => (⟨formatUrl t source text, timeout, proxies⟩ : Request) := by
  induction ts with
  | nil => rfl
  | cons t ts ih => simp [makeRequest_requests, ih]

/-- C2: a text longer than 5000 characters makes `translate` exit(1) before
any network call, with an empty request log; a text of at most 5000
characters passes the length check and proceeds to the dispatch on the
resolved parameters. -/
theorem C2_length_precondition (cfg : Config) (transport : Transport)
    (cord : List Nat) (text : List Char) (targetArg : Option Target)
    (sourceArg : Option (List Char)) (timeoutArg : Option Nat)
    (proxiesArg : Option Proxies) :
    (5000 < text.length →
      translate cfg transport cord text targetArg sourceArg timeoutArg proxiesArg =
        ⟨.exit 1, [], true, []⟩) ∧
    (text.length ≤ 5000 →
      translate cfg transport cord text targetArg sourceArg timeoutArg proxiesArg =
        dispatch transport cord text (orTarget targetArg cfg.target_language)
          (orStr sourceArg cfg.source_language) (orNat timeoutArg cfg.timeout)
          (orProx proxiesArg cfg.proxies)) := by
  constructor
  · intro h
    simp only [translate]
    rw [if_pos h]
  · intro h
    simp only [translate]
    rw [if_neg (by omega)]

/-- Witness for C2 at a 5001-character text and at a 2-character text. -/
theorem C2_length_precondition_witness :
    (translate defaultConfig stubOk [] (List.replicate 5001 'a') none none none none =
      ⟨.exit 1, [], true, []⟩) ∧
    (translate defaultConfig stubOk [] (("hi").toList) none none none none =
      dispatch stubOk [] (("hi").toList) (orTarget none defaultConfig.target_language)
        (orStr none defaultConfig.source_language) (orNat none defaultConfig.timeout)
        (orProx none defaultConfig.proxies)) :=
  ⟨(C2_length_precondition defaultConfig stubOk [] (List.replicate 5001 'a')
      none none none none).1 (by simp only [List.length_replicate]; omega),
   (C2_length_precondition defaultConfig stubOk [] (("hi").toList)
      none none none none).2 (by decide)⟩

/-- C6: a successful response whose body matches neither marker makes
`make_request` write the raw body verbatim to `error.txt` and exit(1)
without returning a translation. -/
theorem C6_unparseable_writes_error_file (transport : Transport)
    (target source text : List Char) (timeout : Nat) (proxies : Option Proxies)
    (st : Nat) (body : List Char)
    (hresp : transport ⟨formatUrl target source text, timeout, proxies⟩ = .resp st body)
    (hst : st < 400) (hm : findTranslation body = none) :
    makeRequest transport target source text timeout proxies =
      ⟨none, [(("error.txt").toList, body)], true,
        [⟨formatUrl target source text, timeout, proxies⟩]⟩ :=
  makeRequest_noParse transport target source text timeout proxies st body hresp hst hm

/-- Witness for C6 on a stub body with neither marker. -/
theorem C6_unparseable_writes_error_file_witness :
    makeRequest stubNoMatch (("tr").toList) (("auto").toList) (("hi").toList) 5 none =
      ⟨none, [(("error.txt").toList, ("<html>nothing here</html>").toList)], true,
        [⟨formatUrl (("tr").toList) (("auto").toList) (("hi").toList), 5, none⟩]⟩ :=
  C6_unparseable_writes_error_file stubNoMatch (("tr").toList) (("auto").toList)
    (("hi").toList) 5 none 200 (("<html>nothing here</html>").toList)
    rfl (by omega) (by decide)

/-- C7: a transport exception or a 4xx/5xx status is fatal for the request:
`make_request` prints the error and exits without returning a value, having
issued exactly one request (no retry). -/
theorem C7_transport_failure_fatal (transport : Transport)
    (target source text : List Char) (timeout : Nat) (proxies : Option Proxies)
    (h : transport ⟨formatUrl target source text, timeout, proxies⟩ = .exn ∨
      ∃ st body, transport ⟨formatUrl target source text, timeout, proxies⟩ = .resp st body ∧
        400 ≤ st ∧ st < 600) :
    makeRequest transport target source text timeout proxies =
      ⟨none, [], true, [⟨formatUrl target source text, timeout, proxies⟩]⟩ :=
  makeRequest_fail transport target source text timeout proxies h

/-- Witness for C7 on a stub transport that raises. -/
theorem C7_transport_failure_fatal_witness :
    makeRequest stubExn (("tr").toList) (("auto").toList) (("hi").toList) 5 none =
      ⟨none, [], true, [⟨formatUrl (("tr").toList) (("auto").toList) (("hi").toList), 5, none⟩]⟩ :=
  C7_transport_failure_fatal stubExn (("tr").toList) (("auto").toList) (("hi").toList) 5 none
    (Or.inl rfl)

/-- C8: `translate_file` on a path that is not an existing regular file
exits(1) with no request issued and no file read; on an existing file it is
the same computation as `translate` on the file content with the same
remaining arguments. -/
theorem C8_translate_file_delegates (cfg : Config) (transport : Transport)
    (cord : List Nat) (fs : FileSystem) (path : List Char)
    (targetArg : Option Target) (sourceArg : Option (List Char))
    (timeoutArg : Option Nat) (proxiesArg : Option Proxies) :
    (fs path = none →
      translateFile cfg transport cord fs path targetArg sourceArg timeoutArg proxiesArg =
        ⟨.exit 1, [], true, []⟩) ∧
    (∀ text, fs path = some text →
      translateFile cfg transport cord fs path targetArg sourceArg timeoutArg proxiesArg =
        translate cfg transport cord text targetArg sourceArg timeoutArg proxiesArg) := by
  constructor
  · intro h
    simp only [translateFile, h]
  · intro text h
    simp only [translateFile, h]

/-- Witness for C8 on a one-file stub filesystem. -/
theorem C8_translate_file_delegates_witness :
    (translateFile defaultConfig stubOk []
        (fun p => if p = ("a.txt").toList then some (("hi").toList) else none)
        (("missing.txt").toList) none none none none =
      ⟨.exit 1, [], true, []⟩) ∧
    (translateFile defaultConfig stubOk []
        (fun p => if p = ("a.txt").toList then some (("hi").toList) else none)
        (("a.txt").toList) none none none none =
      translate defaultConfig stubOk [] (("hi").toList) none none none none) :=
  ⟨(C8_translate_file_delegates defaultConfig stubOk []
      (fun p => if p = ("a.txt").toList then some (("hi").toList) else none)
      (("missing.txt").toList) none none none none).1 (by decide),
   (C8_translate_file_delegates defaultConfig stubOk []
      (fun p => if p = ("a.txt").toList then some (("hi").toList) else none)
      (("a.txt").toList) none none none none).2 (("hi").toList) (by decide)⟩

/-- Counterexample to C5 as stated: the per-call argument `timeout=0` is
given explicitly, yet the issued request carries the instance default 5, not
0 — Python `or` discards falsy explicit arguments. -/
theorem C5_counterexample :
    (translate defaultConfig stubOk [] (("hi").toList) none none (some 0) none).requests =
      [⟨formatUrl (("tr").toList) (("auto").toList) (("hi").toList), 5, none⟩] ∧
    (0 : Nat) ≠ 5 := by
  constructor
  · decide
  · decide

/-- C5 (amended): each parameter resolves to the explicit per-call argument
when one is given and it is truthy, otherwise to the instance default, whose
hardcoded construction fallbacks are `auto`, `tr`, 5 and no proxies; the
resolved values are exactly what the dispatch receives (resolution reads the
instance defaults without changing them — the embedding is pure). -/
theorem C5_resolution_precedence (cfg : Config) (transport : Transport)
    (cord : List Nat) (text : List Char) (targetArg : Option Target)
    (sourceArg : Option (List Char)) (timeoutArg : Option Nat)
    (proxiesArg : Option Proxies) (hlen : text.length ≤ 5000) :
    (translate cfg transport cord text targetArg sourceArg timeoutArg proxiesArg =
      dispatch transport cord text (orTarget targetArg cfg.target_language)
        (orStr sourceArg cfg.source_language) (orNat timeoutArg cfg.timeout)
        (orProx proxiesArg cfg.proxies)) ∧
    (∀ v d, Target.truthy v = true → orTarget (some v) d = v) ∧
    (∀ d : Target, orTarget none d = d) ∧
    (∀ v d, Target.truthy v = false → orTarget (some v) d = d) ∧
    (∀ v d, v ≠ [] → orStr (some v) d = v) ∧
    (∀ d : List Char, orStr none d = d) ∧
    (∀ d : List Char, orStr (some []) d = d) ∧
    (∀ v d, v ≠ 0 → orNat (some v) d = v) ∧
    (∀ d : Nat, orNat none d = d) ∧
    (∀ d : Nat, orNat (some 0) d = d) ∧
    (∀ (v : Proxies) (d : Option Proxies), v ≠ [] → orProx (some v) d = some v) ∧
    (∀ d : Option Proxies, orProx none d = d) ∧
    (∀ d : Option Proxies, orProx (some []) d = d) ∧
    defaultConfig = ⟨("auto").toList, .str (("tr").toList), 5, none⟩ := by
  refine ⟨?_, ?_, fun d => rfl, ?_, ?_, fun d => rfl, fun d => rfl, ?_,
    fun d => rfl, fun d => rfl, ?_, fun d => rfl, fun d => rfl, rfl⟩
  · simp only [translate]
    rw [if_neg (by omega)]
  · intro v d hv
    simp [orTarget, hv]
  · intro v d hv
    simp [orTarget, hv]
  · intro v d hv
    cases v with
    | nil => exact absurd rfl hv
    | cons a l => rfl
  · intro v d hv
    cases v with
    | zero => exact absurd rfl hv
    | succ n => rfl
  · intro v d hv
    cases v with
    | nil => exact absurd rfl hv
    | cons a l => rfl

/-- Witness for C5 (amended) at a concrete short text. -/
theorem C5_resolution_precedence_witness :
    translate defaultConfig stubOk [] (("hi").toList) none none none none =
      dispatch stubOk [] (("hi").toList) (orTarget none defaultConfig.target_language)
        (orStr none defaultConfig.source_language) (orNat none defaultConfig.timeout)
        (orProx none defaultConfig.proxies) :=
  (C5_resolution_precedence defaultConfig stubOk [] (("hi").toList)
    none none none none (by decide)).1

/-- C9: falsy per-call arguments — an empty target list, empty language
codes, timeout 0 and an empty proxies dict — are silently replaced by the
instance defaults; in particular an empty-list target does not fan out: one
request goes to the instance default target and a single string comes
back. -/
theorem C9_falsy_args_use_instance_defaults (cfg : Config) (transport : Transport)
    (cord : List Nat) (text t body m : List Char) (st : Nat)
    (hlen : text.length ≤ 5000)
    (htgt : cfg.target_language = .str t)
    (hresp : transport ⟨formatUrl t cfg.source_language text, cfg.timeout, cfg.proxies⟩ =
      .resp st body)
    (hst : st < 400) (hm : findTranslation body = some m) :
    translate cfg transport cord text (some (.list [])) (some []) (some 0) (some []) =
      ⟨.single (htmlUnescape m), [], false,
        [⟨formatUrl t cfg.source_language text, cfg.timeout, cfg.proxies⟩]⟩ := by
  have h1 : orTarget (some (.list [])) cfg.target_language = .str t := by
    rw [htgt]
    rfl
  simp only [translate]
  rw [if_neg (by omega), h1]
  have h2 : orStr (some []) cfg.source_language = cfg.source_language := rfl
  have h3 : orNat (some 0) cfg.timeout = cfg.timeout := rfl
  have h4 : orProx (some []) cfg.proxies = cfg.proxies := rfl
  rw [h2, h3, h4]
  simp only [dispatch, Target.pyStr]
  rw [makeRequest_ok transport t cfg.source_language text cfg.timeout cfg.proxies
    st body m hresp hst hm]

/-- Witness for C9: all four falsy arguments at once against the default
instance and the stub transport. -/
theorem C9_falsy_args_use_instance_defaults_witness :
    translate defaultConfig stubOk [] (("hi").toList)
        (some (.list [])) (some []) (some 0) (some []) =
      ⟨.single (htmlUnescape (("Merhaba").toList)), [], false,
        [⟨formatUrl (("tr").toList) defaultConfig.source_language (("hi").toList),
          defaultConfig.timeout, defaultConfig.proxies⟩]⟩ :=
  C9_falsy_args_use_instance_defaults defaultConfig stubOk [] (("hi").toList)
    (("tr").toList) okBody (("Merhaba").toList) 200
    (by decide) rfl rfl (by omega) (by decide)

/-- C10: fan-out happens exactly on a resolved `list` target.  A truthy
non-list target — a string or a tuple — yields a single request whose URL
holds the Python string form of that value verbatim, and the outcome is a
single string on success, never a collection; a resolved list target never
yields a single string. -/
theorem C10_fanout_iff_list (cfg : Config) (transport : Transport)
    (cord : List Nat) (text : List Char) (v : Target)
    (sourceArg : Option (List Char)) (timeoutArg : Option Nat)
    (proxiesArg : Option Proxies)
    (hlen : text.length ≤ 5000) (hv : Target.truthy v = true) :
    (Target.isList v = false →
      (translate cfg transport cord text (some v) sourceArg timeoutArg proxiesArg).requests =
        [⟨formatUrl (Target.pyStr v) (orStr sourceArg cfg.source_language) text,
          orNat timeoutArg cfg.timeout, orProx proxiesArg cfg.proxies⟩] ∧
      (∀ m, (makeRequest transport (Target.pyStr v) (orStr sourceArg cfg.source_language)
          text (orNat timeoutArg cfg.timeout) (orProx proxiesArg cfg.proxies)).result =
            some m →
        (translate cfg transport cord text (some v) sourceArg timeoutArg
            proxiesArg).outcome = .single m) ∧
      (∀ ss, (translate cfg transport cord text (some v) sourceArg timeoutArg
          proxiesArg).outcome ≠ .multi ss)) ∧
    (∀ ts, v = .list ts →
      ∀ s, (translate cfg transport cord text (some v) sourceArg timeoutArg
        proxiesArg).outcome ≠ .single s) := by
  have hres : translate cfg transport cord text (some v) sourceArg timeoutArg proxiesArg =
      dispatch transport cord text v (orStr sourceArg cfg.source_language)
        (orNat timeoutArg cfg.timeout) (orProx proxiesArg cfg.proxies) := by
    simp only [translate]
    rw [if_neg (by omega)]
    simp [orTarget, hv]
  constructor
  · intro hnl
    rw [hres]
    cases v with
    | str s =>
      refine ⟨?_, ?_, ?_⟩
      · simp only [dispatch, Target.pyStr]
        rw [makeRequest_requests]
      · intro m hm
        simp only [dispatch, Target.pyStr] at hm ⊢
        rw [hm]
      · intro ss
        simp only [dispatch, Target.pyStr]
        cases hr : (makeRequest transport s (orStr sourceArg cfg.source_language) text
            (orNat timeoutArg cfg.timeout) (orProx proxiesArg cfg.proxies)).result <;>
          simp [hr]
    | list ts => simp [Target.isList] at hnl
    | tuple ts =>
      refine ⟨?_, ?_, ?_⟩
      · simp only [dispatch]
        rw [makeRequest_requests]
      · intro m hm
        simp only [dispatch] at hm ⊢
        rw [hm]
      · intro ss
        simp only [dispatch]
        cases hr : (makeRequest transport (Target.pyStr (.tuple ts))
            (orStr sourceArg cfg.source_language) text (orNat timeoutArg cfg.timeout)
            (orProx proxiesArg cfg.proxies)).result <;> simp [hr]
  · intro ts hts s
    subst hts
    rw [hres]
    simp only [dispatch]
    cases hg : gatherCompleted (ts.map fun t => makeRequest transport t
        (orStr sourceArg cfg.source_language) text (orNat timeoutArg cfg.timeout)
        (orProx proxiesArg cfg.proxies)) cord <;> simp [hg]

/-- Witness for C10 at a two-element tuple target: one request with the
tuple's `str()` form in the URL, a single-string outcome. -/
theorem C10_fanout_iff_list_witness :
    (translate defaultConfig stubOk [] (("hi").toList)
        (some (.tuple [("tr").toList, ("fr").toList])) none none none).requests =
      [⟨formatUrl (Target.pyStr (.tuple [("tr").toList, ("fr").toList]))
          (orStr none defaultConfig.source_language) (("hi").toList),
        orNat none defaultConfig.timeout, orProx none defaultConfig.proxies⟩] ∧
    (∀ m, (makeRequest stubOk (Target.pyStr (.tuple [("tr").toList, ("fr").toList]))
        (orStr none defaultConfig.source_language) (("hi").toList)
        (orNat none defaultConfig.timeout) (orProx none defaultConfig.proxies)).result =
          some m →
      (translate defaultConfig stubOk [] (("hi").toList)
          (some (.tuple [("tr").toList, ("fr").toList])) none none none).outcome =
        .single m) ∧
    (∀ ss, (translate defaultConfig stubOk [] (("hi").toList)
        (some (.tuple [("tr").toList, ("fr").toList])) none none none).outcome ≠
      .multi ss) :=
  (C10_fanout_iff_list defaultConfig stubOk [] (("hi").toList)
    (.tuple [("tr").toList, ("fr").toList]) none none none
    (by decide) (by decide)).1 (by decide)

/-- A list is a `isPrefixOf`-prefix of itself followed by anything. -/
theorem isPrefixOf_append_self (l r : List Char) : l.isPrefixOf (l ++ r) = true := by
  induction l with
  | nil => simp [List.isPrefixOf]
  | cons a as ih => simp [List.isPrefixOf, ih]

/-- C3: on a successful response whose body holds one of the two markers at
its leftmost matching position, `make_request` captures everything from the
end of the marker up to (not including) the next `<`, entity-decodes it and
returns it. -/
theorem C3_first_match_extraction (transport : Transport)
    (target source text : List Char) (timeout : Nat) (proxies : Option Proxies)
    (st : Nat) (pre mk mid suf : List Char)
    (hmk : mk = marker1 ∨ mk = marker2)
    (hresp : transport ⟨formatUrl target source text, timeout, proxies⟩ =
      .resp st (pre ++ (mk ++ (mid ++ '<' :: suf))))
    (hst : st < 400)
    (hpre : ∀ i, i < pre.length →
      matchHere ((pre ++ (mk ++ (mid ++ '<' :: suf))).drop i) = none)
    (hmid : '<' ∉ mid) :
    makeRequest transport target source text timeout proxies =
      ⟨some (htmlUnescape mid), [], false,
        [⟨formatUrl target source text, timeout, proxies⟩]⟩ := by
  have hmatch : matchHere (mk ++ (mid ++ '<' :: suf)) = some mid := by
    rcases hmk with h | h <;> subst h
    · simp [matchHere, isPrefixOf_append_self, List.drop_left,
        upToLt_append _ _ hmid]
    · simp [matchHere, marker1_not_prefixOf_marker2, isPrefixOf_append_self,
        List.drop_left, upToLt_append _ _ hmid]
  exact makeRequest_ok transport target source text timeout proxies st _ mid hresp hst
    (findTranslation_first pre _ mid hpre hmatch)

/-- Witness for C3: a `result-container` body with a leading non-matching
chunk and an entity in the capture. -/
theorem C3_first_match_extraction_witness :
    makeRequest
        (fun _ => .resp 200 ((("ab ").toList ++ (marker2 ++ ((("It&#39;s fine").toList) ++
          '<' :: ("/div>x").toList)))))
        (("tr").toList) (("auto").toList) (("hi").toList) 5 none =
      ⟨some (htmlUnescape (("It&#39;s fine").toList)), [], false,
        [⟨formatUrl (("tr").toList) (("auto").toList) (("hi").toList), 5, none⟩]⟩ :=
  C3_first_match_extraction
    (fun _ => .resp 200 ((("ab ").toList ++ (marker2 ++ ((("It&#39;s fine").toList) ++
      '<' :: ("/div>x").toList)))))
    (("tr").toList) (("auto").toList) (("hi").toList) 5 none 200
    (("ab ").toList) marker2 (("It&#39;s fine").toList) (("/div>x").toList)
    (Or.inr rfl) rfl (by omega) (by decide) (by decide)

/-- C1: a multi-target call over N targets issues N requests, one per target
with all other parameters identical, and — for every completion order of the
N futures — returns exactly N entries ordered by completion order, the entry
for target i appearing where i completes. -/
theorem C1_fanout_completion_order (cfg : Config) (transport : Transport)
    (cord : List Nat) (text : List Char) (ts : List (List Char))
    (sourceArg : Option (List Char)) (timeoutArg : Option Nat)
    (proxiesArg : Option Proxies) (f : Nat → List Char)
    (hlen : text.length ≤ 5000) (hts : ts ≠ [])
    (hcord : cord.Perm (List.range ts.length))
    (hok : ∀ i (h : i < ts.length),
      (makeRequest transport (ts.get ⟨i, h⟩) (orStr sourceArg cfg.source_language) text
        (orNat timeoutArg cfg.timeout) (orProx proxiesArg cfg.proxies)).result =
          some (f i)) :
    (translate cfg transport cord text (some (.list ts)) sourceArg timeoutArg
        proxiesArg).requests =
      ts.map (fun t => ⟨formatUrl t (orStr sourceArg cfg.source_language) text,
        orNat timeoutArg cfg.timeout, orProx proxiesArg cfg.proxies⟩) ∧
    (translate cfg transport cord text (some (.list ts)) sourceArg timeoutArg
        proxiesArg).outcome = .multi (cord.map f) ∧
    (cord.map f).length = ts.length := by
  have h1 : orTarget (some (.list ts)) cfg.target_language = .list ts := by
    cases ts with
    | nil => exact absurd rfl hts
    | cons a l => rfl
  have hres : translate cfg transport cord text (some (.list ts)) sourceArg timeoutArg
      proxiesArg =
      dispatch transport cord text (.list ts) (orStr sourceArg cfg.source_language)
        (orNat timeoutArg cfg.timeout) (orProx proxiesArg cfg.proxies) := by
    simp only [translate]
    rw [if_neg (by omega), h1]
  have hgather : gatherCompleted (ts.map fun t => makeRequest transport t
      (orStr sourceArg cfg.source_language) text (orNat timeoutArg cfg.timeout)
      (orProx proxiesArg cfg.proxies)) cord = some (cord.map f) := by
    apply gatherCompleted_eq
    intro i hi
    have hilt : i < ts.length := by
      have := hcord.mem_iff.mp hi
      simpa using this
    rw [getD_map_lt ts _ i hilt]
    exact hok i hilt
  refine ⟨?_, ?_, ?_⟩
  · rw [hres]
    simp only [dispatch]
    exact fanout_requests transport (orStr sourceArg cfg.source_language) text
      (orNat timeoutArg cfg.timeout) (orProx proxiesArg cfg.proxies) ts
  · rw [hres]
    simp only [dispatch]
    rw [hgather]
  · rw [List.length_map, hcord.length_eq, List.length_range]

/-- Witness for C1: three targets, completion order 2, 0, 1. -/
theorem C1_fanout_completion_order_witness :
    (translate defaultConfig stubOk [2, 0, 1] (("hi").toList)
        (some (.list [("tr").toList, ("fr").toList, ("de").toList]))
        none none none).requests =
      [("tr").toList, ("fr").toList, ("de").toList].map (fun t =>
        ⟨formatUrl t (orStr none defaultConfig.source_language) (("hi").toList),
          orNat none defaultConfig.timeout, orProx none defaultConfig.proxies⟩) ∧
    (translate defaultConfig stubOk [2, 0, 1] (("hi").toList)
        (some (.list [("tr").toList, ("fr").toList, ("de").toList]))
        none none none).outcome =
      .multi ([2, 0, 1].map fun _ => htmlUnescape (("Merhaba").toList)) ∧
    ([2, 0, 1].map fun _ => htmlUnescape (("Merhaba").toList)).length =
      [("tr").toList, ("fr").toList, ("de").toList].length :=
  C1_fanout_completion_order defaultConfig stubOk [2, 0, 1] (("hi").toList)
    [("tr").toList, ("fr").toList, ("de").toList] none none none
    (fun _ => htmlUnescape (("Merhaba").toList))
    (by decide) (by decide) (by decide) (by decide)

/-- C4: a single-target call issues its request at exactly the fixed template
`https://translate.google.com/m?tl={target}&sl={source}&q={encoded_text}`:
the target and source codes appear verbatim in their query positions and
`encoded_text` is the percent-encoding of the UTF-8 bytes of the text. -/
theorem C4_url_exact_template (cfg : Config) (transport : Transport)
    (cord : List Nat) (text target source : List Char)
    (timeoutArg : Option Nat) (proxiesArg : Option Proxies)
    (hlen : text.length ≤ 5000) (htgt : target ≠ []) (hsrc : source ≠ []) :
    (translate cfg transport cord text (some (.str target)) (some source)
        timeoutArg proxiesArg).requests =
      [⟨("https://translate.google.com/m?tl=").toList ++ target ++
          ("&sl=").toList ++ source ++ ("&q=").toList ++
          percentEncode (utf8Encode text),
        orNat timeoutArg cfg.timeout, orProx proxiesArg cfg.proxies⟩] := by
  have h1 : orTarget (some (.str target)) cfg.target_language = .str target := by
    cases target with
    | nil => exact absurd rfl htgt
    | cons a l => rfl
  have h2 : orStr (some source) cfg.source_language = source := by
    cases source with
    | nil => exact absurd rfl hsrc
    | cons a l => rfl
  simp only [translate]
  rw [if_neg (by omega), h1, h2]
  simp only [dispatch, Target.pyStr]
  rw [makeRequest_requests]
  simp [formatUrl, escapedText]

/-- Witness for C4 at a text with a space and a non-ASCII character. -/
theorem C4_url_exact_template_witness :
    (translate defaultConfig stubOk [] (("a ç").toList) (some (.str (("fr").toList)))
        (some (("en").toList)) none none).requests =
      [⟨("https://translate.google.com/m?tl=").toList ++ (("fr").toList) ++
          ("&sl=").toList ++ (("en").toList) ++ ("&q=").toList ++
          percentEncode (utf8Encode (("a ç").toList)),
        orNat none defaultConfig.timeout, orProx none defaultConfig.proxies⟩] :=
  C4_url_exact_template defaultConfig stubOk [] (("a ç").toList) (("fr").toList)
    (("en").toList) none none (by decide) (by decide) (by decide)

end EGT
